import Mathlib

/-!
# CAN receive / error subsystem of `src/CANRX/can_rx.c`

A shallow embedding of the interrupt dispatcher `CAN0IntHandler`, the error
handler `CANErrorHandler`, the indicator writer `writeLEDs`, the one-time
configuration `InitCAN0` and the body of the `while(1)` loop of `main`.

* The globals of the C file are the fields of `Globals`; `uint32_t` and
  `uint8_t` values are natural numbers, reduced modulo `2^32` / `2^8` at the
  places where the C code can wrap (`g_ui32RXMsgCount++`, the `uint8_t`
  parameter of `writeLEDs`).
* Values the C code obtains from the hardware (`CANIntStatus`, `CANStatusGet`,
  `SysCtlClockGet`, the read-back of `CANMessageGet`) are arguments of the
  embedded functions.
* Calls into the driver library, and the conditional blocks that are entered,
  are recorded in order as a list of `Event`s, so that statements such as
  "writes the indicator once" or "this branch is entered" can be expressed.
-/

namespace CANRX

/-! ## Constants -/

/-- Message identifier macro `CAN0RXID` (`can_rx.c`, line 120). -/
def CAN0RXID : Nat := 0

/-- Message object number macro `RXOBJECT` (`can_rx.c`, line 121). -/
def RXOBJECT : Nat := 1

/-- Modelled from the spec: `inc/hw_can.h` is not among the sources; the
interrupt cause that announces a status interrupt is `0x8000` (also stated in
the comment of `CAN0IntHandler`, line 157). -/
def CAN_INT_INTID_STATUS : Nat := 0x8000

/-- Modelled from the spec: `driverlib/can.h` is not among the sources;
bus-off status bit, `0x80`. -/
def CAN_STATUS_BUS_OFF : Nat := 0x80

/-- Modelled from the spec: `driverlib/can.h` is not among the sources;
error-warning status bit, `0x40`. -/
def CAN_STATUS_EWARN : Nat := 0x40

/-- Modelled from the spec: `driverlib/can.h` is not among the sources;
error-passive status bit, `0x20`. -/
def CAN_STATUS_EPASS : Nat := 0x20

/-- Modelled from the spec: `driverlib/can.h` is not among the sources;
receive-ok status bit, `0x10`. -/
def CAN_STATUS_RXOK : Nat := 0x10

/-- Modelled from the spec: `driverlib/can.h` is not among the sources;
transmit-ok status bit, `0x08`. -/
def CAN_STATUS_TXOK : Nat := 0x08

/-- Modelled from the spec: `driverlib/can.h` is not among the sources;
mask of the last-error-code field, `0x07`. -/
def CAN_STATUS_LEC_MSK : Nat := 0x07

/-- Modelled from the spec: `driverlib/can.h` is not among the sources;
last error code "bit stuffing error", a value of the field `0x07` (1 in the
TivaWare header). -/
def CAN_STATUS_LEC_STUFF : Nat := 0x01

/-- Modelled from the spec: `driverlib/can.h` is not among the sources;
last error code "format error", a value of the field `0x07` (2 in the TivaWare
header). -/
def CAN_STATUS_LEC_FORM : Nat := 0x02

/-- Modelled from the spec: `driverlib/can.h` is not among the sources;
last error code "acknowledge error", a value of the field `0x07` (3 in the
TivaWare header). -/
def CAN_STATUS_LEC_ACK : Nat := 0x03

/-- Modelled from the spec: `driverlib/can.h` is not among the sources;
last error code "bit level 1 error", a value of the field `0x07` (4 in the
TivaWare header). -/
def CAN_STATUS_LEC_BIT1 : Nat := 0x04

/-- Modelled from the spec: `driverlib/can.h` is not among the sources;
last error code "bit level 0 error", a value of the field `0x07` (5 in the
TivaWare header). -/
def CAN_STATUS_LEC_BIT0 : Nat := 0x05

/-- Modelled from the spec: `driverlib/can.h` is not among the sources;
last error code "CRC error", `0x06`. -/
def CAN_STATUS_LEC_CRC : Nat := 0x06

/-- Modelled from the spec: `driverlib/can.h` is not among the sources;
the second name of the last-error-code mask, `0x07`. -/
def CAN_STATUS_LEC_MASK : Nat := 0x07

/-- Modelled from the spec: `driverlib/can.h` is not among the sources;
message object flag "receive interrupt enabled" (value of the TivaWare header;
no statement below depends on it). -/
def MSG_OBJ_RX_INT_ENABLE : Nat := 0x02

/-- Modelled from the spec: `driverlib/can.h` is not among the sources;
message object flag "use the identifier filter" (value of the TivaWare header;
no statement below depends on it). -/
def MSG_OBJ_USE_ID_FILTER : Nat := 0x08

/-- Modelled from the spec: `driverlib/can.h` is not among the sources;
message object flag "data was lost" (value of the TivaWare header; the
statements below hold for every value of the flags read back). -/
def MSG_OBJ_DATA_LOST : Nat := 0x100

/-- Bitwise complement of a 32-bit value: the `~(m)` of `g_ui32ErrFlag &= ~(m)`
after conversion to `uint32_t`. -/
def not32 (x : Nat) : Nat := 0xFFFFFFFF ^^^ x

/-! ## Data model -/

/-- Target of the pointer field `pui8MsgData`. The only address the program
ever stores in it is `&g_ui8RXMsgData`; a zero-initialised global is `NULL`. -/
inductive BufPtr where
  | null
  | g_ui8RXMsgData
  deriving DecidableEq

/-- The fields of `tCANMsgObject` (declared in `driverlib/can.h`) that the
program uses. -/
structure tCANMsgObject where
  ui32MsgID : Nat
  ui32MsgIDMask : Nat
  ui32Flags : Nat
  ui32MsgLen : Nat
  pui8MsgData : BufPtr
  deriving DecidableEq

/-- The `tMsgObjType` argument of `CANMessageSet`. -/
inductive tMsgObjType where
  | MSG_OBJ_TYPE_TX
  | MSG_OBJ_TYPE_TX_REMOTE
  | MSG_OBJ_TYPE_RX
  | MSG_OBJ_TYPE_RX_REMOTE
  | MSG_OBJ_TYPE_RXTX_REMOTE
  deriving DecidableEq

/-- The global variables of `can_rx.c` (lines 89-128). -/
structure Globals where
  g_ui32RXMsgCount : Nat
  g_ui32TXMsgCount : Nat
  g_bRXFlag : Bool
  g_ui32ErrFlag : Nat
  g_sCAN0RxMessage : tCANMsgObject
  g_ui8RXMsgData : Nat
  deriving DecidableEq

/-- The values the globals have when `main` starts (C static initialisation). -/
def Globals.initial : Globals :=
  { g_ui32RXMsgCount := 0
    g_ui32TXMsgCount := 0
    g_bRXFlag := false
    g_ui32ErrFlag := 0
    g_sCAN0RxMessage :=
      { ui32MsgID := 0, ui32MsgIDMask := 0, ui32Flags := 0, ui32MsgLen := 0,
        pui8MsgData := BufPtr.null }
    g_ui8RXMsgData := 0 }

/-- The conditional blocks of `CANErrorHandler`, in source order. -/
inductive ErrBranch where
  | BUS_OFF
  | EWARN
  | EPASS
  | RXOK
  | TXOK
  | LEC_MSK
  | LEC_STUFF
  | LEC_FORM
  | LEC_ACK
  | LEC_BIT1
  | LEC_BIT0
  | LEC_CRC
  | LEC_MASK
  | UNHANDLED
  deriving DecidableEq

/-- Driver-library calls made by `InitCAN0` before it builds the receive
message object (lines 201-236); `CANBitRateSet` carries its clock and bit-rate
arguments. -/
inductive SetupCall where
  | SysCtlPeripheralEnable_GPIOF
  | GPIOPinTypeGPIOOutput_PORTF_123
  | SysCtlPeripheralEnable_GPIOE
  | GPIOPinConfigure_PE4_CAN0RX
  | GPIOPinConfigure_PE5_CAN0TX
  | GPIOPinTypeCAN_PORTE_45
  | SysCtlPeripheralEnable_CAN0
  | CANInit
  | CANBitRateSet (ui32SourceClock ui32BitRate : Nat)
  | CANIntRegister
  | CANIntEnable
  | IntEnable_CAN0
  | CANEnable
  deriving DecidableEq

/-- What the program does that is visible outside the globals: calls into the
driver library (with the arguments that are not fixed header constants), the
call of `CANErrorHandler`, and entries into conditional blocks. -/
inductive Event where
  | CANIntStatus
  | CANStatusGet
  | CANIntClear (ui32IntClr : Nat)
  | CANMessageGet (ui32ObjID : Nat) (bClrPendingInt : Bool)
  | CANMessageSet (ui32ObjID : Nat) (psMsgObject : tCANMsgObject)
      (eMsgType : tMsgObjType)
  | GPIOPinWrite (ui8Val : Nat)
  | setup (c : SetupCall)
  | callCANErrorHandler
  | branch (b : ErrBranch)
  | dataLostBranch
  deriving DecidableEq

/-- What `CANMessageGet` stores through its `psMsgObject` argument and through
the data pointer of that object: the fields of the message object and the byte
left in `g_ui8RXMsgData`. -/
structure ReadBack where
  ui32MsgID : Nat
  ui32MsgIDMask : Nat
  ui32Flags : Nat
  ui32MsgLen : Nat
  data : Nat
  deriving DecidableEq

/-! ## The interrupt dispatcher -/

/-- `CAN0IntHandler` (lines 149-193). `cause` is the value returned by
`CANIntStatus(CAN0_BASE, CAN_INT_STS_CAUSE)`, `status` the value
`CANStatusGet(CAN0_BASE, CAN_STS_CONTROL)` returns if it is called. -/
def CAN0IntHandler (cause status : Nat) (g : Globals) : Globals × List Event :=
  let ui32Status := cause
  if ui32Status = CAN_INT_INTID_STATUS then
    let ui32Status := status
    ({ g with g_ui32ErrFlag := g.g_ui32ErrFlag ||| ui32Status },
      [Event.CANIntStatus, Event.CANStatusGet])
  else if ui32Status = RXOBJECT then
    ({ g with
        g_ui32RXMsgCount := (g.g_ui32RXMsgCount + 1) % 2 ^ 32
        g_bRXFlag := true
        g_ui32ErrFlag := 0 },
      [Event.CANIntStatus, Event.CANIntClear RXOBJECT])
  else
    (g, [Event.CANIntStatus])

/-- A sequence of interrupts, each given by its cause read and its status
read, with nothing else running in between. -/
def runInterrupts (l : List (Nat × Nat)) (g : Globals) : Globals :=
  l.foldl (fun acc p => (CAN0IntHandler p.1 p.2 acc).1) g

/-- The status-register values read by the status interrupts of a sequence. -/
def statusReads (l : List (Nat × Nat)) : List Nat :=
  (l.filter (fun p => decide (p.1 = CAN_INT_INTID_STATUS))).map Prod.snd

/-- Bitwise OR of a list of values. -/
def orAll (l : List Nat) : Nat := l.foldl (fun a s => a ||| s) 0

/-! ## Indicator output -/

/-- `writeLEDs` (lines 195-197): one `GPIOPinWrite` on port F, pins 1-3, with
value `leds & 0x0E`; `leds` is a `uint8_t` parameter. -/
def writeLEDs (leds : Nat) : List Event :=
  let leds := leds % 2 ^ 8
  [Event.GPIOPinWrite (leds &&& 0x0E)]

/-! ## Configuration -/

/-- `InitCAN0` (lines 200-250). `clock` is the value of `SysCtlClockGet()`.
`sizeof(g_ui8RXMsgData)` is 1, the variable being a `uint8_t`. -/
def InitCAN0 (clock : Nat) (g : Globals) : Globals × List Event :=
  let m := g.g_sCAN0RxMessage
  let m := { m with ui32MsgID := 2 }
  let m := { m with ui32MsgIDMask := 0 }
  let m := { m with ui32Flags := MSG_OBJ_RX_INT_ENABLE ||| MSG_OBJ_USE_ID_FILTER }
  let m := { m with ui32MsgLen := 1 }
  ({ g with g_sCAN0RxMessage := m },
    [ Event.setup SetupCall.SysCtlPeripheralEnable_GPIOF,
      Event.setup SetupCall.GPIOPinTypeGPIOOutput_PORTF_123,
      Event.setup SetupCall.SysCtlPeripheralEnable_GPIOE,
      Event.setup SetupCall.GPIOPinConfigure_PE4_CAN0RX,
      Event.setup SetupCall.GPIOPinConfigure_PE5_CAN0TX,
      Event.setup SetupCall.GPIOPinTypeCAN_PORTE_45,
      Event.setup SetupCall.SysCtlPeripheralEnable_CAN0,
      Event.setup SetupCall.CANInit,
      Event.setup (SetupCall.CANBitRateSet clock 1000000),
      Event.setup SetupCall.CANIntRegister,
      Event.setup SetupCall.CANIntEnable,
      Event.setup SetupCall.IntEnable_CAN0,
      Event.setup SetupCall.CANEnable,
      Event.CANMessageSet RXOBJECT m tMsgObjType.MSG_OBJ_TYPE_RX ])

/-! ## The error handler -/

/-- One statement `if(g_ui32ErrFlag & m) { g_ui32ErrFlag &= ~(m); }` of
`CANErrorHandler`: the pair is the current value of `g_ui32ErrFlag` and the
blocks entered so far. -/
def testAndClear (b : ErrBranch) (m : Nat) (s : Nat × List ErrBranch) :
    Nat × List ErrBranch :=
  if s.1 &&& m ≠ 0 then (s.1 &&& not32 m, s.2 ++ [b]) else s

/-- `CANErrorHandler` (lines 252-409): the thirteen test-and-clear statements
in source order, then the empty block guarded by `g_ui32ErrFlag != 0`. Returns
the globals and the blocks that were entered. -/
def CANErrorHandler (g : Globals) : Globals × List ErrBranch :=
  let s : Nat × List ErrBranch := (g.g_ui32ErrFlag, [])
  let s := testAndClear ErrBranch.BUS_OFF CAN_STATUS_BUS_OFF s
  let s := testAndClear ErrBranch.EWARN CAN_STATUS_EWARN s
  let s := testAndClear ErrBranch.EPASS CAN_STATUS_EPASS s
  let s := testAndClear ErrBranch.RXOK CAN_STATUS_RXOK s
  let s := testAndClear ErrBranch.TXOK CAN_STATUS_TXOK s
  let s := testAndClear ErrBranch.LEC_MSK CAN_STATUS_LEC_MSK s
  let s := testAndClear ErrBranch.LEC_STUFF CAN_STATUS_LEC_STUFF s
  let s := testAndClear ErrBranch.LEC_FORM CAN_STATUS_LEC_FORM s
  let s := testAndClear ErrBranch.LEC_ACK CAN_STATUS_LEC_ACK s
  let s := testAndClear ErrBranch.LEC_BIT1 CAN_STATUS_LEC_BIT1 s
  let s := testAndClear ErrBranch.LEC_BIT0 CAN_STATUS_LEC_BIT0 s
  let s := testAndClear ErrBranch.LEC_CRC CAN_STATUS_LEC_CRC s
  let s := testAndClear ErrBranch.LEC_MASK CAN_STATUS_LEC_MASK s
  let s := if s.1 ≠ 0 then (s.1, s.2 ++ [ErrBranch.UNHANDLED]) else s
  ({ g with g_ui32ErrFlag := s.1 }, s.2)

/-! ## The main poll loop -/

/-- One pass through the body of `while(1)` in `main` (lines 443-497), with no
interrupt in between. `rb` is what `CANMessageGet` stores if it is called. -/
def mainLoopIteration (rb : ReadBack) (g : Globals) : Globals × List Event :=
  if g.g_bRXFlag = true then
    -- g_sCAN0RxMessage.pui8MsgData = &g_ui8RXMsgData;
    let m := { g.g_sCAN0RxMessage with pui8MsgData := BufPtr.g_ui8RXMsgData }
    -- CANMessageGet(CAN0_BASE, RXOBJECT, &g_sCAN0RxMessage, 0);
    let m := { m with
      ui32MsgID := rb.ui32MsgID
      ui32MsgIDMask := rb.ui32MsgIDMask
      ui32Flags := rb.ui32Flags
      ui32MsgLen := rb.ui32MsgLen }
    let g := { g with g_sCAN0RxMessage := m, g_ui8RXMsgData := rb.data }
    -- writeLEDs((g_ui8RXMsgData)&0x0F);
    let leds := writeLEDs (g.g_ui8RXMsgData &&& 0x0F)
    -- g_bRXFlag = 0;
    let g := { g with g_bRXFlag := false }
    -- if(g_sCAN0RxMessage.ui32Flags & MSG_OBJ_DATA_LOST) { }
    let lost :=
      if g.g_sCAN0RxMessage.ui32Flags &&& MSG_OBJ_DATA_LOST ≠ 0 then
        [Event.dataLostBranch]
      else []
    (g, [Event.CANMessageGet RXOBJECT false] ++ leds ++ lost)
  else if g.g_ui32ErrFlag ≠ 0 then
    let r := CANErrorHandler g
    (r.1, Event.callCANErrorHandler :: r.2.map Event.branch)
  else
    (g, [])

/-- The values written to the indicator: the value arguments of the
`GPIOPinWrite` calls in a list of events, in order. -/
def indicatorWrites : List Event → List Nat
  | [] => []
  | Event.GPIOPinWrite v :: es => v :: indicatorWrites es
  | _ :: es => indicatorWrites es

/-- The message objects passed to `CANMessageSet` in a list of events, each with
its slot number and type. -/
def messageSets : List Event → List (Nat × tCANMsgObject × tMsgObjType)
  | [] => []
  | Event.CANMessageSet n m t :: es => (n, m, t) :: messageSets es
  | _ :: es => messageSets es

/-- Several passes of the poll loop in a row, with no interrupt in between; the
list gives, for each pass, what `CANMessageGet` would store in it. -/
def runPollLoop (rbs : List ReadBack) (g : Globals) : Globals :=
  rbs.foldl (fun acc rb => (mainLoopIteration rb acc).1) g

/-- The blocks of `CANErrorHandler` that test an individual last-error code
(lines 299-399). -/
def lecBranches : List ErrBranch :=
  [ErrBranch.LEC_STUFF, ErrBranch.LEC_FORM, ErrBranch.LEC_ACK, ErrBranch.LEC_BIT1,
   ErrBranch.LEC_BIT0, ErrBranch.LEC_CRC, ErrBranch.LEC_MASK]

/-- The blocks of `CANErrorHandler` that come before the individual
last-error-code tests (lines 254-294), and the final block for leftover bits
(line 405). -/
def reachableBranches : List ErrBranch :=
  [ErrBranch.BUS_OFF, ErrBranch.EWARN, ErrBranch.EPASS, ErrBranch.RXOK,
   ErrBranch.TXOK, ErrBranch.LEC_MSK, ErrBranch.UNHANDLED]

/-! ## Auxiliary facts -/

/-- Clearing a mask none of whose bits is set in a 32-bit value changes
nothing. -/
theorem and_not32_of_and_eq_zero (e m : Nat) (he : e < 2 ^ 32) (h : e &&& m = 0) :
    e &&& not32 m = e := by
  apply Nat.eq_of_testBit_eq
  intro i
  have hm : (e &&& m).testBit i = false := by rw [h]; exact Nat.zero_testBit i
  rw [Nat.testBit_and] at hm
  have hF : (0xFFFFFFFF : Nat).testBit i = decide (i < 32) :=
    Nat.testBit_two_pow_sub_one 32 i
  rw [Nat.testBit_and, not32, Nat.testBit_xor, hF]
  by_cases hi : i < 32
  · cases hb : e.testBit i <;> cases hc : m.testBit i <;> simp_all
  · have : e.testBit i = false :=
      Nat.testBit_lt_two_pow
        (lt_of_lt_of_le he (Nat.pow_le_pow_right (by decide) (Nat.le_of_not_lt hi)))
    simp [this]

/-- On a 32-bit flag word a test-and-clear statement has the effect of the
unconditional `&= ~(m)`. -/
theorem testAndClear_fst (b : ErrBranch) (m : Nat) (s : Nat × List ErrBranch)
    (hs : s.1 < 2 ^ 32) : (testAndClear b m s).1 = s.1 &&& not32 m := by
  unfold testAndClear
  by_cases h : s.1 &&& m = 0
  · simp [h, and_not32_of_and_eq_zero s.1 m hs h]
  · simp [h]

/-- Chaining form of `testAndClear_fst`: if the flag word is `e &&& k`, it is
`e &&& (k &&& not32 m)` after the statement. -/
theorem testAndClear_chain (b : ErrBranch) (e k m : Nat) (s : Nat × List ErrBranch)
    (he : e < 2 ^ 32) (hs : s.1 = e &&& k) :
    (testAndClear b m s).1 = e &&& (k &&& not32 m) := by
  have hlt : s.1 < 2 ^ 32 := by
    rw [hs]; exact lt_of_le_of_lt Nat.and_le_left he
  rw [testAndClear_fst b m s hlt, hs, Nat.and_assoc]

/-- A test-and-clear statement does nothing when the flag word is zero. -/
theorem testAndClear_zero (b : ErrBranch) (m : Nat) (l : List ErrBranch) :
    testAndClear b m (0, l) = (0, l) := by
  simp [testAndClear]

/-- The flag word `CANErrorHandler` leaves behind, for a 32-bit flag word on
entry. -/
theorem CANErrorHandler_errFlag (g : Globals) (he : g.g_ui32ErrFlag < 2 ^ 32) :
    (CANErrorHandler g).1.g_ui32ErrFlag = g.g_ui32ErrFlag &&& not32 0xFF := by
  have h1 := testAndClear_fst ErrBranch.BUS_OFF CAN_STATUS_BUS_OFF (g.g_ui32ErrFlag, []) he
  have h2 := testAndClear_chain ErrBranch.EWARN _ _ CAN_STATUS_EWARN _ he h1
  have h3 := testAndClear_chain ErrBranch.EPASS _ _ CAN_STATUS_EPASS _ he h2
  have h4 := testAndClear_chain ErrBranch.RXOK _ _ CAN_STATUS_RXOK _ he h3
  have h5 := testAndClear_chain ErrBranch.TXOK _ _ CAN_STATUS_TXOK _ he h4
  have h6 := testAndClear_chain ErrBranch.LEC_MSK _ _ CAN_STATUS_LEC_MSK _ he h5
  have h7 := testAndClear_chain ErrBranch.LEC_STUFF _ _ CAN_STATUS_LEC_STUFF _ he h6
  have h8 := testAndClear_chain ErrBranch.LEC_FORM _ _ CAN_STATUS_LEC_FORM _ he h7
  have h9 := testAndClear_chain ErrBranch.LEC_ACK _ _ CAN_STATUS_LEC_ACK _ he h8
  have h10 := testAndClear_chain ErrBranch.LEC_BIT1 _ _ CAN_STATUS_LEC_BIT1 _ he h9
  have h11 := testAndClear_chain ErrBranch.LEC_BIT0 _ _ CAN_STATUS_LEC_BIT0 _ he h10
  have h12 := testAndClear_chain ErrBranch.LEC_CRC _ _ CAN_STATUS_LEC_CRC _ he h11
  have h13 := testAndClear_chain ErrBranch.LEC_MASK _ _ CAN_STATUS_LEC_MASK _ he h12
  have hk : (not32 CAN_STATUS_BUS_OFF &&& not32 CAN_STATUS_EWARN &&& not32 CAN_STATUS_EPASS
      &&& not32 CAN_STATUS_RXOK &&& not32 CAN_STATUS_TXOK &&& not32 CAN_STATUS_LEC_MSK
      &&& not32 CAN_STATUS_LEC_STUFF &&& not32 CAN_STATUS_LEC_FORM &&& not32 CAN_STATUS_LEC_ACK
      &&& not32 CAN_STATUS_LEC_BIT1 &&& not32 CAN_STATUS_LEC_BIT0 &&& not32 CAN_STATUS_LEC_CRC
      &&& not32 CAN_STATUS_LEC_MASK) = not32 0xFF := by decide
  rw [hk] at h13
  unfold CANErrorHandler
  simp only []
  split <;> exact h13

/-- With a zero flag word `CANErrorHandler` enters no block and returns the
globals as they were. -/
theorem CANErrorHandler_of_errFlag_zero (g : Globals) (h : g.g_ui32ErrFlag = 0) :
    CANErrorHandler g = (g, []) := by
  unfold CANErrorHandler
  simp only [h, testAndClear_zero]
  cases g
  simp_all

/-- The events of a receive pass contain exactly one indicator write. -/
theorem indicatorWrites_rx (v : Nat) (lost : List Event)
    (hl : lost = [] ∨ lost = [Event.dataLostBranch]) :
    indicatorWrites ([Event.CANMessageGet RXOBJECT false] ++ writeLEDs v ++ lost)
      = [(v % 2 ^ 8) &&& 0x0E] := by
  rcases hl with h | h <;> subst h <;> simp [writeLEDs, indicatorWrites]

/-- Masking with `0x0F` and then, as a byte, with `0x0E` is masking with
`0x0E`. -/
theorem low_nibble_and_0E (p : Nat) : ((p &&& 0x0F) % 2 ^ 8) &&& 0x0E = p &&& 0x0E := by
  have h : p &&& 0x0F < 2 ^ 8 :=
    lt_of_le_of_lt Nat.and_le_right (by decide)
  rw [Nat.mod_eq_of_lt h, Nat.and_assoc]
  rfl

/-- The branch events of the error handler never contain an indicator write. -/
theorem indicatorWrites_branches (bs : List ErrBranch) :
    indicatorWrites (bs.map Event.branch) = [] := by
  induction bs with
  | nil => rfl
  | cons b bs ih => simpa [indicatorWrites] using ih

/-- Effect of a sequence of interrupts none of which is a receive interrupt,
from an arbitrary start state. -/
theorem runInterrupts_no_rx (l : List (Nat × Nat)) :
    ∀ g : Globals, (∀ p ∈ l, p.1 ≠ RXOBJECT) →
      (runInterrupts l g).g_ui32ErrFlag
          = (statusReads l).foldl (fun a s => a ||| s) g.g_ui32ErrFlag ∧
      (runInterrupts l g).g_bRXFlag = g.g_bRXFlag ∧
      (runInterrupts l g).g_ui32RXMsgCount = g.g_ui32RXMsgCount ∧
      (runInterrupts l g).g_ui32TXMsgCount = g.g_ui32TXMsgCount := by
  induction l with
  | nil => intro g _; simp [runInterrupts, statusReads]
  | cons p l ih =>
    intro g h
    have hp : p.1 ≠ RXOBJECT := h p (List.mem_cons_self _ _)
    have hl : ∀ q ∈ l, q.1 ≠ RXOBJECT := fun q hq => h q (List.mem_cons_of_mem _ hq)
    have hstep : runInterrupts (p :: l) g = runInterrupts l (CAN0IntHandler p.1 p.2 g).1 := rfl
    rw [hstep]
    obtain ⟨i1, i2, i3, i4⟩ := ih (CAN0IntHandler p.1 p.2 g).1 hl
    rw [i1, i2, i3, i4]
    by_cases hc : p.1 = CAN_INT_INTID_STATUS
    · simp [CAN0IntHandler, statusReads, hc]
    · simp [CAN0IntHandler, statusReads, hc, hp]

/-- A pass of the poll loop entered with a frame pending: one indicator write
of the payload masked with `0x0E`, the pending flag cleared, the payload in the
buffer. -/
theorem mainLoopIteration_of_rx (rb : ReadBack) (g : Globals) (hrx : g.g_bRXFlag = true) :
    indicatorWrites (mainLoopIteration rb g).2 = [rb.data &&& 0x0E] ∧
    (mainLoopIteration rb g).1.g_bRXFlag = false ∧
    (mainLoopIteration rb g).1.g_ui8RXMsgData = rb.data := by
  refine ⟨?_, ?_, ?_⟩
  · unfold mainLoopIteration
    simp only [hrx, if_true]
    rw [indicatorWrites_rx, low_nibble_and_0E]
    by_cases hl : rb.ui32Flags &&& MSG_OBJ_DATA_LOST = 0
    · left; simp [hl]
    · right; simp [hl]
  · simp [mainLoopIteration, hrx]
  · simp [mainLoopIteration, hrx]

/-! ## The interrupt dispatcher: claims C1, C2, C3, C9 -/

/-- C1: for every prior state, one invocation of `CAN0IntHandler` whose cause
read equals `RXOBJECT` (1) ends with `g_bRXFlag` true, `g_ui32RXMsgCount` equal
to the old count plus one modulo `2^32`, `g_ui32ErrFlag` equal to 0 and
`g_ui32TXMsgCount` unchanged. -/
theorem C1_rx_interrupt_effect (status : Nat) (g : Globals) :
    RXOBJECT = 1 ∧
    (CAN0IntHandler RXOBJECT status g).1.g_bRXFlag = true ∧
    (CAN0IntHandler RXOBJECT status g).1.g_ui32RXMsgCount
      = (g.g_ui32RXMsgCount + 1) % 2 ^ 32 ∧
    (CAN0IntHandler RXOBJECT status g).1.g_ui32ErrFlag = 0 ∧
    (CAN0IntHandler RXOBJECT status g).1.g_ui32TXMsgCount = g.g_ui32TXMsgCount := by
  simp [CAN0IntHandler, RXOBJECT, CAN_INT_INTID_STATUS]

/-- C2: for every prior state and every status-register value `s`, one
invocation of `CAN0IntHandler` whose cause read equals `CAN_INT_INTID_STATUS`
(0x8000) ends with `g_ui32ErrFlag` equal to the old value OR `s` and leaves
`g_bRXFlag`, `g_ui32RXMsgCount` and `g_ui32TXMsgCount` unchanged; from
`g_ui32ErrFlag = 0` with `s = CAN_STATUS_BUS_OFF` (0x80) the flag word becomes
exactly the bus-off bit. -/
theorem C2_status_interrupt_effect (s : Nat) (g : Globals) :
    CAN_INT_INTID_STATUS = 0x8000 ∧ CAN_STATUS_BUS_OFF = 0x80 ∧
    (CAN0IntHandler CAN_INT_INTID_STATUS s g).1.g_ui32ErrFlag = g.g_ui32ErrFlag ||| s ∧
    (CAN0IntHandler CAN_INT_INTID_STATUS s g).1.g_bRXFlag = g.g_bRXFlag ∧
    (CAN0IntHandler CAN_INT_INTID_STATUS s g).1.g_ui32RXMsgCount = g.g_ui32RXMsgCount ∧
    (CAN0IntHandler CAN_INT_INTID_STATUS s g).1.g_ui32TXMsgCount = g.g_ui32TXMsgCount ∧
    (CAN0IntHandler CAN_INT_INTID_STATUS CAN_STATUS_BUS_OFF
        { g with g_ui32ErrFlag := 0 }).1.g_ui32ErrFlag = CAN_STATUS_BUS_OFF ∧
    (CAN0IntHandler CAN_INT_INTID_STATUS CAN_STATUS_BUS_OFF
        { g with g_ui32ErrFlag := 0 }).1.g_bRXFlag = g.g_bRXFlag := by
  simp [CAN0IntHandler, CAN_INT_INTID_STATUS, CAN_STATUS_BUS_OFF]

/-- C3: for every finite sequence of `CAN0IntHandler` invocations in which no
cause equals `RXOBJECT`, started from `g_ui32ErrFlag = 0`, the final
`g_ui32ErrFlag` is the bitwise OR of the status reads of the status-cause
invocations, `g_bRXFlag` and `g_ui32RXMsgCount` are as at the start, and an
invocation with a cause that is neither the status cause nor `RXOBJECT` changes
no state. -/
theorem C3_status_reads_accumulate (l : List (Nat × Nat)) (g : Globals)
    (hrx : ∀ p ∈ l, p.1 ≠ RXOBJECT) (h0 : g.g_ui32ErrFlag = 0) :
    (runInterrupts l g).g_ui32ErrFlag = orAll (statusReads l) ∧
    (runInterrupts l g).g_bRXFlag = g.g_bRXFlag ∧
    (runInterrupts l g).g_ui32RXMsgCount = g.g_ui32RXMsgCount ∧
    (∀ (c s : Nat) (g' : Globals), c ≠ CAN_INT_INTID_STATUS → c ≠ RXOBJECT →
      (CAN0IntHandler c s g').1 = g') := by
  obtain ⟨h1, h2, h3, _⟩ := runInterrupts_no_rx l g hrx
  refine ⟨?_, h2, h3, ?_⟩
  · rw [h1, h0]; rfl
  · intro c s g' hc hr
    simp [CAN0IntHandler, hc, hr]

/-- Witness for C3: two status interrupts reading 0x80 and 0x06 with a spurious
cause 5 in between, from the initial globals. -/
theorem C3_status_reads_accumulate_witness :
    (runInterrupts [(0x8000, 0x80), (5, 0x40), (0x8000, 0x06)] Globals.initial).g_ui32ErrFlag
      = orAll (statusReads [(0x8000, 0x80), (5, 0x40), (0x8000, 0x06)]) ∧
    orAll (statusReads [(0x8000, 0x80), (5, 0x40), (0x8000, 0x06)]) = 0x86 :=
  ⟨(C3_status_reads_accumulate [(0x8000, 0x80), (5, 0x40), (0x8000, 0x06)] Globals.initial
      (by decide) rfl).1, by decide⟩

/-- C9, counterexample: an invocation with cause `RXOBJECT` loses a bit of
`g_ui32ErrFlag`; with the bus-off bit (bit 7) set before, it is clear after. -/
theorem C9_counterexample :
    ¬ (∀ (cause status : Nat) (g : Globals) (i : Nat),
        g.g_ui32ErrFlag.testBit i = true →
        (CAN0IntHandler cause status g).1.g_ui32ErrFlag.testBit i = true) := by
  intro h
  have h7 := h RXOBJECT 0 { Globals.initial with g_ui32ErrFlag := 0x80 } 7 (by decide)
  revert h7
  decide

/-- C9, amended: for every prior state and status read, an invocation of
`CAN0IntHandler` with a cause other than `RXOBJECT` keeps every bit that was set
in `g_ui32ErrFlag`; an invocation with cause `RXOBJECT` sets `g_ui32ErrFlag`
to 0. -/
theorem C9_errFlag_bits_kept_unless_rx (cause status : Nat) (g : Globals) :
    (cause ≠ RXOBJECT → ∀ i : Nat, g.g_ui32ErrFlag.testBit i = true →
      (CAN0IntHandler cause status g).1.g_ui32ErrFlag.testBit i = true) ∧
    (cause = RXOBJECT → (CAN0IntHandler cause status g).1.g_ui32ErrFlag = 0) := by
  constructor
  · intro hc i hi
    by_cases hs : cause = CAN_INT_INTID_STATUS
    · simp [CAN0IntHandler, hs, hi]
    · simp [CAN0IntHandler, hs, hc, hi]
  · intro hc
    simp [CAN0IntHandler, hc, RXOBJECT, CAN_INT_INTID_STATUS]

/-- Witness for C9 amended: a status interrupt reading 0x40 keeps the bus-off
bit, and a receive interrupt from the same state zeroes the flag word. -/
theorem C9_errFlag_bits_kept_unless_rx_witness :
    (CAN0IntHandler 0x8000 0x40
        { Globals.initial with g_ui32ErrFlag := 0x80 }).1.g_ui32ErrFlag.testBit 7 = true ∧
    (CAN0IntHandler 1 0x40
        { Globals.initial with g_ui32ErrFlag := 0x80 }).1.g_ui32ErrFlag = 0 :=
  ⟨(C9_errFlag_bits_kept_unless_rx 0x8000 0x40
      { Globals.initial with g_ui32ErrFlag := 0x80 }).1 (by decide) 7 (by decide),
   (C9_errFlag_bits_kept_unless_rx 1 0x40
      { Globals.initial with g_ui32ErrFlag := 0x80 }).2 rfl⟩

/-! ## The error handler: claims C5, C6, C7 -/

/-- C5: for every 32-bit value `e` of `g_ui32ErrFlag`, `CANErrorHandler` ends
with `g_ui32ErrFlag = e AND NOT 0xFF`: every recognized status bit (0x80, 0x40,
0x20, 0x10, 0x08 and the last-error-code field 0x07, together the bits 0..7) is
clear afterwards, and every bit outside 0xFF that was set in `e` is still
set. -/
theorem C5_handler_clears_low_byte_only (g : Globals) (he : g.g_ui32ErrFlag < 2 ^ 32) :
    (CANErrorHandler g).1.g_ui32ErrFlag = g.g_ui32ErrFlag &&& not32 0xFF ∧
    not32 0xFF = 0xFFFFFF00 ∧
    (CAN_STATUS_BUS_OFF ||| CAN_STATUS_EWARN ||| CAN_STATUS_EPASS ||| CAN_STATUS_RXOK
      ||| CAN_STATUS_TXOK ||| CAN_STATUS_LEC_MSK) = 0xFF ∧
    (∀ i : Nat, i < 8 → (CANErrorHandler g).1.g_ui32ErrFlag.testBit i = false) ∧
    (∀ i : Nat, 8 ≤ i → g.g_ui32ErrFlag.testBit i = true →
      (CANErrorHandler g).1.g_ui32ErrFlag.testBit i = true) := by
  have hmask : ∀ i : Nat, (not32 0xFF).testBit i = (decide (i < 32) ^^ decide (i < 8)) := by
    intro i
    have h32 : (0xFFFFFFFF : Nat).testBit i = decide (i < 32) :=
      Nat.testBit_two_pow_sub_one 32 i
    have h8 : (0xFF : Nat).testBit i = decide (i < 8) :=
      Nat.testBit_two_pow_sub_one 8 i
    rw [not32, Nat.testBit_xor, h32, h8]
  refine ⟨CANErrorHandler_errFlag g he, by decide, by decide, ?_, ?_⟩
  · intro i hi
    have hi32 : i < 32 := lt_trans hi (by decide)
    rw [CANErrorHandler_errFlag g he, Nat.testBit_and, hmask]
    simp [hi, hi32]
  · intro i hi hb
    have hi32 : i < 32 := by
      by_contra hcon
      have hf : g.g_ui32ErrFlag.testBit i = false :=
        Nat.testBit_lt_two_pow
          (lt_of_lt_of_le he (Nat.pow_le_pow_right (by decide) (Nat.le_of_not_lt hcon)))
      rw [hf] at hb
      exact Bool.noConfusion hb
    have hi8 : ¬ i < 8 := Nat.not_lt.mpr hi
    rw [CANErrorHandler_errFlag g he, Nat.testBit_and, hmask, hb]
    simp [hi8, hi32]

/-- Witness for C5: the flag word 0x1234 56FF has a full low byte and bits
above it; the handler leaves 0x1234 5600. -/
theorem C5_handler_clears_low_byte_only_witness :
    (CANErrorHandler { Globals.initial with g_ui32ErrFlag := 0x123456FF }).1.g_ui32ErrFlag
      = 0x12345600 :=
  (C5_handler_clears_low_byte_only { Globals.initial with g_ui32ErrFlag := 0x123456FF }
    (by decide)).1

/-- C6, the code at the input of the claim: one pass of the poll loop with
`g_bRXFlag` false and `g_ui32ErrFlag = CAN_STATUS_BUS_OFF | CAN_STATUS_LEC_CRC`
(0x86) calls `CANErrorHandler` and ends with `g_ui32ErrFlag = 0`, but the blocks
entered are the bus-off block and the `CAN_STATUS_LEC_MSK` block only: the block
guarded by `CAN_STATUS_LEC_CRC` is not entered. -/
theorem C6_busoff_crc_blocks_entered (rb : ReadBack) (g : Globals) :
    (CAN_STATUS_BUS_OFF ||| CAN_STATUS_LEC_CRC) = 0x86 ∧
    mainLoopIteration rb { g with g_bRXFlag := false, g_ui32ErrFlag := 0x86 }
      = ({ g with g_bRXFlag := false, g_ui32ErrFlag := 0 },
         [Event.callCANErrorHandler, Event.branch ErrBranch.BUS_OFF,
          Event.branch ErrBranch.LEC_MSK]) ∧
    Event.branch ErrBranch.LEC_CRC ∉
      (mainLoopIteration rb { g with g_bRXFlag := false, g_ui32ErrFlag := 0x86 }).2 := by
  have hrun : mainLoopIteration rb { g with g_bRXFlag := false, g_ui32ErrFlag := 0x86 }
      = ({ g with g_bRXFlag := false, g_ui32ErrFlag := 0 },
         [Event.callCANErrorHandler, Event.branch ErrBranch.BUS_OFF,
          Event.branch ErrBranch.LEC_MSK]) := by
    simp +decide [mainLoopIteration, CANErrorHandler, testAndClear]
  refine ⟨by decide, hrun, ?_⟩
  rw [hrun]
  simp

/-- C7: for every state with `g_ui32ErrFlag = 0`, `CANErrorHandler` enters none
of its conditional blocks and leaves the whole state unchanged: `g_ui32ErrFlag`
stays 0 and `g_bRXFlag`, `g_ui32RXMsgCount` and `g_ui32TXMsgCount` keep their
values. -/
theorem C7_handler_idle_on_zero (g : Globals) (h : g.g_ui32ErrFlag = 0) :
    (CANErrorHandler g).2 = [] ∧
    (CANErrorHandler g).1 = g ∧
    (CANErrorHandler g).1.g_ui32ErrFlag = 0 ∧
    (CANErrorHandler g).1.g_bRXFlag = g.g_bRXFlag ∧
    (CANErrorHandler g).1.g_ui32RXMsgCount = g.g_ui32RXMsgCount ∧
    (CANErrorHandler g).1.g_ui32TXMsgCount = g.g_ui32TXMsgCount := by
  rw [CANErrorHandler_of_errFlag_zero g h]
  exact ⟨rfl, rfl, h, rfl, rfl, rfl⟩

/-- Witness for C7: a state with counters 3 and 4 and a zero flag word. -/
theorem C7_handler_idle_on_zero_witness :
    CANErrorHandler { Globals.initial with g_ui32RXMsgCount := 3, g_ui32TXMsgCount := 4 }
      = ({ Globals.initial with g_ui32RXMsgCount := 3, g_ui32TXMsgCount := 4 }, []) :=
  Prod.ext
    (C7_handler_idle_on_zero
      { Globals.initial with g_ui32RXMsgCount := 3, g_ui32TXMsgCount := 4 } rfl).2.1
    (C7_handler_idle_on_zero
      { Globals.initial with g_ui32RXMsgCount := 3, g_ui32TXMsgCount := 4 } rfl).1

/-! ## Configuration: claim C8 -/

/-- C8, the code: after `InitCAN0` the receive message object has mask 0 and
length 1 and is passed to `CANMessageSet` exactly once, for slot `RXOBJECT` with
type RX, but its `ui32MsgID` is the literal 2, not `CAN0RXID` = 0. -/
theorem C8_InitCAN0_message_object (clock : Nat) (g : Globals) :
    (InitCAN0 clock g).1.g_sCAN0RxMessage.ui32MsgID = 2 ∧
    (InitCAN0 clock g).1.g_sCAN0RxMessage.ui32MsgID ≠ CAN0RXID ∧
    (InitCAN0 clock g).1.g_sCAN0RxMessage.ui32MsgIDMask = 0 ∧
    (InitCAN0 clock g).1.g_sCAN0RxMessage.ui32MsgLen = 1 ∧
    messageSets (InitCAN0 clock g).2
      = [(RXOBJECT, (InitCAN0 clock g).1.g_sCAN0RxMessage, tMsgObjType.MSG_OBJ_TYPE_RX)] ∧
    RXOBJECT = 1 := by
  simp [InitCAN0, messageSets, CAN0RXID, RXOBJECT]

/-! ## The main poll loop: claims C4, C10 -/

/-- C4, the code at the input of the claim: one pass of the poll loop entered
with `g_bRXFlag` true writes the indicator exactly once and ends with
`g_bRXFlag` false, for every payload and every value of the flags read back, but
the value argument of `GPIOPinWrite` is the payload AND 0x0E, not the payload
AND 0x0F: with payload 0x1F the value written is 0x0E, where the claim says
0x0F. -/
theorem C4_indicator_write_drops_bit0 (rb : ReadBack) (g : Globals) :
    indicatorWrites (mainLoopIteration rb { g with g_bRXFlag := true }).2
      = [rb.data &&& 0x0E] ∧
    (mainLoopIteration rb { g with g_bRXFlag := true }).1.g_bRXFlag = false ∧
    (mainLoopIteration rb { g with g_bRXFlag := true }).1.g_ui8RXMsgData = rb.data ∧
    indicatorWrites
        (mainLoopIteration { rb with data := 0x1F } { g with g_bRXFlag := true }).2
      = [0x0E] ∧
    indicatorWrites
        (mainLoopIteration { rb with data := 0x1F } { g with g_bRXFlag := true }).2
      ≠ [0x1F &&& 0x0F] := by
  have h := mainLoopIteration_of_rx rb { g with g_bRXFlag := true } rfl
  have h1 : indicatorWrites
      (mainLoopIteration { rb with data := 0x1F } { g with g_bRXFlag := true }).2
        = [0x0E] := by
    rw [(mainLoopIteration_of_rx { rb with data := 0x1F }
      { g with g_bRXFlag := true } rfl).1]
    simp only [List.cons.injEq, and_true]
    decide
  refine ⟨h.1, h.2.1, h.2.2, h1, ?_⟩
  rw [h1]
  decide

/-- C10: for every state, one pass of the poll loop calls `CANErrorHandler` if
and only if `g_bRXFlag` is false and `g_ui32ErrFlag` is non-zero; when
`g_bRXFlag` is true the pass consumes the frame (read-back, one indicator write,
flag cleared) and leaves `g_ui32ErrFlag` unchanged; when `g_bRXFlag` is false and
`g_ui32ErrFlag` is 0 the pass changes no state and writes nothing. -/
theorem C10_poll_loop_dispatch (rb : ReadBack) (g : Globals) :
    (Event.callCANErrorHandler ∈ (mainLoopIteration rb g).2 ↔
      (g.g_bRXFlag = false ∧ g.g_ui32ErrFlag ≠ 0)) ∧
    (g.g_bRXFlag = false → g.g_ui32ErrFlag ≠ 0 →
      (mainLoopIteration rb g).1 = (CANErrorHandler g).1) ∧
    (g.g_bRXFlag = true →
      (mainLoopIteration rb g).1.g_ui32ErrFlag = g.g_ui32ErrFlag ∧
      (mainLoopIteration rb g).1.g_bRXFlag = false ∧
      (mainLoopIteration rb g).1.g_ui8RXMsgData = rb.data ∧
      Event.CANMessageGet RXOBJECT false ∈ (mainLoopIteration rb g).2 ∧
      (indicatorWrites (mainLoopIteration rb g).2).length = 1) ∧
    (g.g_bRXFlag = false → g.g_ui32ErrFlag = 0 →
      mainLoopIteration rb g = (g, []) ∧
      indicatorWrites (mainLoopIteration rb g).2 = []) := by
  refine ⟨?_, ?_, ?_, ?_⟩
  · cases hrx : g.g_bRXFlag
    · by_cases he : g.g_ui32ErrFlag = 0
      · simp [mainLoopIteration, hrx, he]
      · simp [mainLoopIteration, hrx, he]
    · unfold mainLoopIteration
      simp only [hrx, if_true]
      by_cases hl : rb.ui32Flags &&& MSG_OBJ_DATA_LOST = 0
      · simp [hl, writeLEDs]
      · simp [hl, writeLEDs]
  · intro hrx he
    simp [mainLoopIteration, hrx, he]
  · intro hrx
    have hw := mainLoopIteration_of_rx rb g hrx
    refine ⟨?_, hw.2.1, hw.2.2, ?_, ?_⟩
    · simp [mainLoopIteration, hrx]
    · simp [mainLoopIteration, hrx]
    · rw [hw.1]; rfl
  · intro hrx he
    have : mainLoopIteration rb g = (g, []) := by
      simp [mainLoopIteration, hrx, he]
    rw [this]
    exact ⟨rfl, rfl⟩

/-- Witness for C10: with no frame pending and the bus-off bit set the handler
is called; with a frame pending and the same flag word the flag word is kept;
with nothing pending the pass does nothing. -/
theorem C10_poll_loop_dispatch_witness :
    Event.callCANErrorHandler ∈ (mainLoopIteration ⟨0, 0, 0, 1, 0x1F⟩
        { Globals.initial with g_ui32ErrFlag := 0x80 }).2 ∧
    (mainLoopIteration ⟨0, 0, 0, 1, 0x1F⟩
        { Globals.initial with g_bRXFlag := true, g_ui32ErrFlag := 0x80 }).1.g_ui32ErrFlag
      = 0x80 ∧
    mainLoopIteration ⟨0, 0, 0, 1, 0x1F⟩ Globals.initial = (Globals.initial, []) :=
  ⟨(C10_poll_loop_dispatch ⟨0, 0, 0, 1, 0x1F⟩
      { Globals.initial with g_ui32ErrFlag := 0x80 }).1.mpr ⟨rfl, by decide⟩,
   ((C10_poll_loop_dispatch ⟨0, 0, 0, 1, 0x1F⟩
      { Globals.initial with g_bRXFlag := true, g_ui32ErrFlag := 0x80 }).2.2.1 rfl).1,
   ((C10_poll_loop_dispatch ⟨0, 0, 0, 1, 0x1F⟩ Globals.initial).2.2.2 rfl rfl).1⟩

/-! ## Further auxiliary facts -/

/-- After a test-and-clear statement for a 32-bit mask `m`, no bit of `m` is
set in the flag word. -/
theorem testAndClear_and_eq_zero (b : ErrBranch) (m : Nat) (s : Nat × List ErrBranch)
    (hm : not32 m &&& m = 0) : (testAndClear b m s).1 &&& m = 0 := by
  unfold testAndClear
  by_cases h : s.1 &&& m = 0
  · simp [h]
  · simp only [ne_eq, h, not_false_eq_true, if_true]
    rw [Nat.and_assoc, hm, Nat.and_zero]

/-- Once the bits of the last-error-code field are clear, a test-and-clear
statement for a mask inside that field does nothing. -/
theorem testAndClear_of_lec_clear (b : ErrBranch) (m : Nat) (s : Nat × List ErrBranch)
    (h : s.1 &&& CAN_STATUS_LEC_MSK = 0) (hm : CAN_STATUS_LEC_MSK &&& m = m) :
    testAndClear b m s = s := by
  have h0 : s.1 &&& m = 0 := by
    rw [← hm, ← Nat.and_assoc, h, Nat.zero_and]
  simp [testAndClear, h0]

/-- A test-and-clear statement adds at most its own block to the blocks
entered. -/
theorem testAndClear_snd_subset (b : ErrBranch) (m : Nat) (s : Nat × List ErrBranch)
    (L : List ErrBranch) (hs : ∀ x ∈ s.2, x ∈ L) (hb : b ∈ L) :
    ∀ x ∈ (testAndClear b m s).2, x ∈ L := by
  intro x hx
  unfold testAndClear at hx
  by_cases h : s.1 &&& m = 0
  · simp only [ne_eq, h, not_true_eq_false, if_false] at hx
    exact hs x hx
  · simp only [ne_eq, h, not_false_eq_true, if_true, List.mem_append,
      List.mem_singleton] at hx
    rcases hx with hx | hx
    · exact hs x hx
    · rw [hx]; exact hb

/-- The seven individual last-error-code statements of `CANErrorHandler` leave
the pair of flag word and entered blocks as it is once the field is clear. -/
theorem lec_statements_skip (s : Nat × List ErrBranch)
    (h : s.1 &&& CAN_STATUS_LEC_MSK = 0) :
    testAndClear ErrBranch.LEC_MASK CAN_STATUS_LEC_MASK
      (testAndClear ErrBranch.LEC_CRC CAN_STATUS_LEC_CRC
        (testAndClear ErrBranch.LEC_BIT0 CAN_STATUS_LEC_BIT0
          (testAndClear ErrBranch.LEC_BIT1 CAN_STATUS_LEC_BIT1
            (testAndClear ErrBranch.LEC_ACK CAN_STATUS_LEC_ACK
              (testAndClear ErrBranch.LEC_FORM CAN_STATUS_LEC_FORM
                (testAndClear ErrBranch.LEC_STUFF CAN_STATUS_LEC_STUFF s)))))) = s := by
  rw [testAndClear_of_lec_clear ErrBranch.LEC_STUFF CAN_STATUS_LEC_STUFF s h (by decide),
    testAndClear_of_lec_clear ErrBranch.LEC_FORM CAN_STATUS_LEC_FORM s h (by decide),
    testAndClear_of_lec_clear ErrBranch.LEC_ACK CAN_STATUS_LEC_ACK s h (by decide),
    testAndClear_of_lec_clear ErrBranch.LEC_BIT1 CAN_STATUS_LEC_BIT1 s h (by decide),
    testAndClear_of_lec_clear ErrBranch.LEC_BIT0 CAN_STATUS_LEC_BIT0 s h (by decide),
    testAndClear_of_lec_clear ErrBranch.LEC_CRC CAN_STATUS_LEC_CRC s h (by decide),
    testAndClear_of_lec_clear ErrBranch.LEC_MASK CAN_STATUS_LEC_MASK s h (by decide)]

/-- Whatever the flag word on entry, `CANErrorHandler` leaves the
last-error-code field clear and enters only blocks that precede the individual
last-error-code tests, or the final block. -/
theorem CANErrorHandler_blocks (g : Globals) :
    (CANErrorHandler g).1.g_ui32ErrFlag &&& CAN_STATUS_LEC_MSK = 0 ∧
    ∀ x ∈ (CANErrorHandler g).2, x ∈ reachableBranches := by
  have m0 : ∀ x ∈ ((g.g_ui32ErrFlag, []) : Nat × List ErrBranch).2, x ∈ reachableBranches := by
    intro x hx; simp at hx
  have m1 := testAndClear_snd_subset ErrBranch.BUS_OFF CAN_STATUS_BUS_OFF _ _ m0 (by decide)
  have m2 := testAndClear_snd_subset ErrBranch.EWARN CAN_STATUS_EWARN _ _ m1 (by decide)
  have m3 := testAndClear_snd_subset ErrBranch.EPASS CAN_STATUS_EPASS _ _ m2 (by decide)
  have m4 := testAndClear_snd_subset ErrBranch.RXOK CAN_STATUS_RXOK _ _ m3 (by decide)
  have m5 := testAndClear_snd_subset ErrBranch.TXOK CAN_STATUS_TXOK _ _ m4 (by decide)
  have m6 := testAndClear_snd_subset ErrBranch.LEC_MSK CAN_STATUS_LEC_MSK _ _ m5 (by decide)
  have z6 := testAndClear_and_eq_zero ErrBranch.LEC_MSK CAN_STATUS_LEC_MSK
    (testAndClear ErrBranch.TXOK CAN_STATUS_TXOK
      (testAndClear ErrBranch.RXOK CAN_STATUS_RXOK
        (testAndClear ErrBranch.EPASS CAN_STATUS_EPASS
          (testAndClear ErrBranch.EWARN CAN_STATUS_EWARN
            (testAndClear ErrBranch.BUS_OFF CAN_STATUS_BUS_OFF (g.g_ui32ErrFlag, []))))))
    (by decide)
  unfold CANErrorHandler
  simp only []
  rw [lec_statements_skip _ z6]
  split
  · refine ⟨z6, ?_⟩
    intro x hx
    simp only [List.mem_append, List.mem_singleton] at hx
    rcases hx with hx | hx
    · exact m6 x hx
    · rw [hx]; decide
  · exact ⟨z6, m6⟩

/-- A 32-bit value has no bit in common with its complement. -/
theorem and_not32_self (e : Nat) (he : e < 2 ^ 32) : e &&& not32 e = 0 := by
  apply Nat.eq_of_testBit_eq
  intro i
  have hF : (0xFFFFFFFF : Nat).testBit i = decide (i < 32) :=
    Nat.testBit_two_pow_sub_one 32 i
  rw [Nat.testBit_and, not32, Nat.testBit_xor, hF, Nat.zero_testBit]
  by_cases hi : i < 32
  · cases hb : e.testBit i <;> simp [hi]
  · have : e.testBit i = false :=
      Nat.testBit_lt_two_pow
        (lt_of_lt_of_le he (Nat.pow_le_pow_right (by decide) (Nat.le_of_not_lt hi)))
    simp [this]

/-- A bit from position 8 upward that is set in a 32-bit value is set in the
value with its low byte cleared. -/
theorem and_not32_FF_testBit (e i : Nat) (he : e < 2 ^ 32) (hi : 8 ≤ i)
    (hb : e.testBit i = true) : (e &&& not32 0xFF).testBit i = true := by
  have h32 : (0xFFFFFFFF : Nat).testBit i = decide (i < 32) :=
    Nat.testBit_two_pow_sub_one 32 i
  have h8 : (0xFF : Nat).testBit i = decide (i < 8) :=
    Nat.testBit_two_pow_sub_one 8 i
  have hi32 : i < 32 := by
    by_contra hcon
    have hf : e.testBit i = false :=
      Nat.testBit_lt_two_pow
        (lt_of_lt_of_le he (Nat.pow_le_pow_right (by decide) (Nat.le_of_not_lt hcon)))
    rw [hf] at hb
    exact Bool.noConfusion hb
  have hi8 : ¬ i < 8 := Nat.not_lt.mpr hi
  rw [Nat.testBit_and, not32, Nat.testBit_xor, h32, h8, hb]
  simp [hi8, hi32]

/-- `CANErrorHandler` writes no global other than `g_ui32ErrFlag`. -/
theorem CANErrorHandler_frame (g : Globals) :
    (CANErrorHandler g).1.g_bRXFlag = g.g_bRXFlag ∧
    (CANErrorHandler g).1.g_ui32RXMsgCount = g.g_ui32RXMsgCount ∧
    (CANErrorHandler g).1.g_ui32TXMsgCount = g.g_ui32TXMsgCount :=
  ⟨rfl, rfl, rfl⟩

/-- A pass of the poll loop ends with no frame pending and with both message
counters as they were. -/
theorem mainLoopIteration_frame (rb : ReadBack) (g : Globals) :
    (mainLoopIteration rb g).1.g_bRXFlag = false ∧
    (mainLoopIteration rb g).1.g_ui32RXMsgCount = g.g_ui32RXMsgCount ∧
    (mainLoopIteration rb g).1.g_ui32TXMsgCount = g.g_ui32TXMsgCount := by
  cases hrx : g.g_bRXFlag
  · by_cases he : g.g_ui32ErrFlag = 0
    · simp [mainLoopIteration, hrx, he]
    · have hf := CANErrorHandler_frame g
      simp [mainLoopIteration, hrx, he, hf.1, hf.2.1, hf.2.2]
  · simp [mainLoopIteration, hrx]

/-- The flag word after a pass of the poll loop: kept when a frame was pending,
low byte cleared otherwise. -/
theorem mainLoopIteration_errFlag (rb : ReadBack) (g : Globals)
    (he : g.g_ui32ErrFlag < 2 ^ 32) :
    (g.g_bRXFlag = true →
      (mainLoopIteration rb g).1.g_ui32ErrFlag = g.g_ui32ErrFlag) ∧
    (g.g_bRXFlag = false →
      (mainLoopIteration rb g).1.g_ui32ErrFlag = g.g_ui32ErrFlag &&& not32 0xFF) := by
  constructor
  · intro hrx
    simp [mainLoopIteration, hrx]
  · intro hrx
    by_cases h0 : g.g_ui32ErrFlag = 0
    · simp [mainLoopIteration, hrx, h0]
    · have hh := CANErrorHandler_errFlag g he
      simp [mainLoopIteration, hrx, h0, hh]

/-- Passes of the poll loop started with no frame pending: the pending flag
stays false and, after the first pass, the flag word is the initial one with
its low byte cleared. -/
theorem runPollLoop_of_not_rx (rbs : List ReadBack) :
    ∀ g : Globals, g.g_bRXFlag = false → g.g_ui32ErrFlag < 2 ^ 32 →
      (runPollLoop rbs g).g_bRXFlag = false ∧
      (runPollLoop rbs g).g_ui32ErrFlag
        = (if rbs = [] then g.g_ui32ErrFlag else g.g_ui32ErrFlag &&& not32 0xFF) := by
  induction rbs with
  | nil => intro g hrx _; simp [runPollLoop, hrx]
  | cons rb rbs ih =>
    intro g hrx he
    have hstep : runPollLoop (rb :: rbs) g = runPollLoop rbs (mainLoopIteration rb g).1 := rfl
    have h1 := (mainLoopIteration_frame rb g).1
    have h2 := (mainLoopIteration_errFlag rb g he).2 hrx
    have h3 : (mainLoopIteration rb g).1.g_ui32ErrFlag < 2 ^ 32 := by
      rw [h2]; exact lt_of_le_of_lt Nat.and_le_left he
    obtain ⟨i1, i2⟩ := ih (mainLoopIteration rb g).1 h1 h3
    rw [hstep, i1, i2, h2]
    refine ⟨rfl, ?_⟩
    by_cases hl : rbs = []
    · simp [hl]
    · simp [hl, Nat.and_assoc]

/-! ## Unreachable last-error-code blocks: claim C11 -/

/-- C11: for every value of `g_ui32ErrFlag` on entry to `CANErrorHandler`, none
of the blocks testing an individual last-error code (`CAN_STATUS_LEC_STUFF`,
`LEC_FORM`, `LEC_ACK`, `LEC_BIT1`, `LEC_BIT0`, `LEC_CRC` and the trailing
`CAN_STATUS_LEC_MASK`) is entered: the `CAN_STATUS_LEC_MSK` (0x07) statement
before them leaves bits 0..2 clear, so only the blocks up to that statement and
the final leftover block can be entered. -/
theorem C11_lec_blocks_never_entered (g : Globals) :
    (∀ b ∈ lecBranches, b ∉ (CANErrorHandler g).2) ∧
    (∀ x ∈ (CANErrorHandler g).2, x ∈ reachableBranches) ∧
    (CANErrorHandler g).1.g_ui32ErrFlag &&& CAN_STATUS_LEC_MSK = 0 ∧
    CAN_STATUS_LEC_MSK = 0x07 := by
  obtain ⟨hz, hsub⟩ := CANErrorHandler_blocks g
  refine ⟨?_, hsub, hz, rfl⟩
  intro b hb hmem
  have hr := hsub b hmem
  revert hb hr
  cases b <;> decide

/-- Witness for C11: with the CRC code 0x06 in the flag word the CRC block is
not among the blocks entered. -/
theorem C11_lec_blocks_never_entered_witness :
    ErrBranch.LEC_CRC ∉
      (CANErrorHandler { Globals.initial with g_ui32ErrFlag := 0x06 }).2 :=
  (C11_lec_blocks_never_entered { Globals.initial with g_ui32ErrFlag := 0x06 }).1
    ErrBranch.LEC_CRC (by decide)

/-! ## Invariants of the poll loop: claim C12 -/

/-- C12: for every state with a 32-bit flag word, one pass of the poll loop
(no interrupt in between) ends with `g_bRXFlag` false, sets no bit of
`g_ui32ErrFlag` that was not set before (new AND NOT old = 0) and leaves
`g_ui32RXMsgCount` and `g_ui32TXMsgCount` unchanged; consequently, if
`g_bRXFlag` is false and `g_ui32ErrFlag` has a bit outside 0xFF set, then after
any number of passes `g_ui32ErrFlag` is still non-zero (after at least one pass
it equals the old value AND NOT 0xFF) and the next pass calls `CANErrorHandler`
again. -/
theorem C12_poll_loop_invariants (rb : ReadBack) (g : Globals)
    (he : g.g_ui32ErrFlag < 2 ^ 32) :
    (mainLoopIteration rb g).1.g_bRXFlag = false ∧
    (mainLoopIteration rb g).1.g_ui32ErrFlag &&& not32 g.g_ui32ErrFlag = 0 ∧
    (mainLoopIteration rb g).1.g_ui32RXMsgCount = g.g_ui32RXMsgCount ∧
    (mainLoopIteration rb g).1.g_ui32TXMsgCount = g.g_ui32TXMsgCount ∧
    (g.g_bRXFlag = false → (∃ i : Nat, 8 ≤ i ∧ g.g_ui32ErrFlag.testBit i = true) →
      ∀ (rbs : List ReadBack) (next : ReadBack),
        (runPollLoop rbs g).g_ui32ErrFlag ≠ 0 ∧
        (rbs ≠ [] →
          (runPollLoop rbs g).g_ui32ErrFlag = g.g_ui32ErrFlag &&& not32 0xFF) ∧
        Event.callCANErrorHandler ∈ (mainLoopIteration next (runPollLoop rbs g)).2) := by
  obtain ⟨f1, f2, f3⟩ := mainLoopIteration_frame rb g
  obtain ⟨e1, e2⟩ := mainLoopIteration_errFlag rb g he
  refine ⟨f1, ?_, f2, f3, ?_⟩
  · cases hrx : g.g_bRXFlag
    · rw [e2 hrx, Nat.and_assoc, Nat.and_comm (not32 0xFF), ← Nat.and_assoc,
        and_not32_self _ he, Nat.zero_and]
    · rw [e1 hrx, and_not32_self _ he]
  · intro hrx hbit rbs next
    obtain ⟨i, hi, hb⟩ := hbit
    obtain ⟨r1, r2⟩ := runPollLoop_of_not_rx rbs g hrx he
    have hne : (runPollLoop rbs g).g_ui32ErrFlag ≠ 0 := by
      intro h0
      rw [r2] at h0
      by_cases hl : rbs = []
      · simp only [hl, if_true] at h0
        rw [h0, Nat.zero_testBit] at hb
        exact Bool.noConfusion hb
      · simp only [hl, if_false] at h0
        have hb2 := and_not32_FF_testBit _ i he hi hb
        rw [h0, Nat.zero_testBit] at hb2
        exact Bool.noConfusion hb2
    refine ⟨hne, ?_, ?_⟩
    · intro hl
      rw [r2]
      simp [hl]
    · simp [mainLoopIteration, r1, hne]

/-- Witness for C12: from the flag word 0x1FF with no frame pending, two passes
leave 0x100 and the third pass calls the handler again. -/
theorem C12_poll_loop_invariants_witness :
    (runPollLoop [⟨0, 0, 0, 1, 0⟩, ⟨0, 0, 0, 1, 0⟩]
        { Globals.initial with g_ui32ErrFlag := 0x1FF }).g_ui32ErrFlag = 0x100 ∧
    Event.callCANErrorHandler ∈
      (mainLoopIteration ⟨0, 0, 0, 1, 0⟩
        (runPollLoop [⟨0, 0, 0, 1, 0⟩, ⟨0, 0, 0, 1, 0⟩]
          { Globals.initial with g_ui32ErrFlag := 0x1FF })).2 :=
  ⟨((C12_poll_loop_invariants ⟨0, 0, 0, 1, 0⟩
        { Globals.initial with g_ui32ErrFlag := 0x1FF } (by decide)).2.2.2.2 rfl
        ⟨8, by decide, by decide⟩ [⟨0, 0, 0, 1, 0⟩, ⟨0, 0, 0, 1, 0⟩] ⟨0, 0, 0, 1, 0⟩).2.1
      (by simp),
   ((C12_poll_loop_invariants ⟨0, 0, 0, 1, 0⟩
        { Globals.initial with g_ui32ErrFlag := 0x1FF } (by decide)).2.2.2.2 rfl
        ⟨8, by decide, by decide⟩ [⟨0, 0, 0, 1, 0⟩, ⟨0, 0, 0, 1, 0⟩] ⟨0, 0, 0, 1, 0⟩).2.2⟩

end CANRX
